import Mathlib

/-!
Verification of the Audiology music-library organizer (`src/main.py`)
against its natural-language specification.

The development shallowly embeds the parts of `main.py` that the claims
are about:

* the recognition-response parsing of `AudioProcessor.recognize_song`
  (lines 113-141), over a small JSON value type with Python-style
  `[]` / `.get` access (including the exceptions they can raise);
* the sample-window computation of `AudioProcessor.create_sample`
  (lines 98-111) over lists of PCM milliseconds;
* `MetadataComparisonDialog.get_edited_metadata` (lines 38-43);
* the per-container-format tag writes, artwork step, filename
  sanitization and rename of `MainWindow.apply_metadata`
  (lines 213-268), over Python-dict-like tag states and a faithful
  model of `os.path.dirname` / `os.path.join` / `os.path.splitext`.

Python dicts are modelled as insertion-ordered association lists,
machine-external effects (HTTP transport, tag-library save, `os.rename`
success) as explicit outcome parameters, and Python exceptions as an
`Except` layer.
-/

/-! ## Python dictionaries (string keys and values, insertion ordered) -/

/-- A Python `dict` with string keys and values: an insertion-ordered
association list.  Assignment replaces in place or appends. -/
abbrev PyDict := List (String × String)

/-- `d[k]` lookup, `None`-valued when the key is absent. -/
def PyDict.get? : PyDict → String → Option String
  | [], _ => none
  | (k', v') :: rest, k => if k' = k then some v' else PyDict.get? rest k

/-- `d[k] = v`: replace the first binding of `k` in place, else append. -/
def PyDict.set : PyDict → String → String → PyDict
  | [], k, v => [(k, v)]
  | (k', v') :: rest, k, v =>
    if k' = k then (k, v) :: rest else (k', v') :: PyDict.set rest k v

/-- Python `k in d`. -/
def PyDict.hasKey (d : PyDict) (k : String) : Bool :=
  (d.get? k).isSome

/-- `d[k]` where the caller has already established presence
(defaults to `""` otherwise). -/
def PyDict.getV (d : PyDict) (k : String) : String :=
  (d.get? k).getD ""

theorem PyDict.get?_set_self (d : PyDict) (k v : String) :
    (d.set k v).get? k = some v := by
  induction d with
  | nil => simp [PyDict.set, PyDict.get?]
  | cons hd tl ih =>
    by_cases h : hd.1 = k <;> simp [PyDict.set, PyDict.get?, h, ih]

theorem PyDict.get?_set_ne (d : PyDict) (k k' v : String) (h : k ≠ k') :
    (d.set k v).get? k' = d.get? k' := by
  induction d with
  | nil => simp [PyDict.set, PyDict.get?, h]
  | cons hd tl ih =>
    by_cases hh : hd.1 = k <;> simp [PyDict.set, PyDict.get?, hh, h, ih]

/-! ## JSON values and Python-style access -/

/-- A JSON value as decoded by `response.json()`. -/
inductive Json where
  | null : Json
  | bool : Bool → Json
  | num : Int → Json
  | str : String → Json
  | arr : List Json → Json
  | obj : List (String × Json) → Json

/-- Exceptions that the modelled Python code can raise. -/
inductive PyErr where
  | keyError (k : String)
  | indexError
  | typeError
  | attributeError
  | writeError
deriving DecidableEq

/-- Key lookup in a JSON object's binding list. -/
def jsonLookup (kvs : List (String × Json)) (k : String) : Option Json :=
  (kvs.find? (fun kv => kv.1 == k)).map (·.2)

/-- Python `j[k]` on a decoded JSON value: `KeyError` when the key is
absent, `TypeError` when `j` is not a dict. -/
def getItem (j : Json) (k : String) : Except PyErr Json :=
  match j with
  | .obj kvs =>
    match jsonLookup kvs k with
    | some v => .ok v
    | none => .error (.keyError k)
  | _ => .error .typeError

/-- Python `j.get(k, d)`: `AttributeError` when `j` is not a dict. -/
def pyGetJ (j : Json) (k : String) (d : Json) : Except PyErr Json :=
  match j with
  | .obj kvs => .ok ((jsonLookup kvs k).getD d)
  | _ => .error .attributeError

/-- Total `j.get(k, d)` for contexts where `j` is known to be a dict
(non-dicts just yield the default). -/
def jGetD (j : Json) (k : String) (d : Json) : Json :=
  match j with
  | .obj kvs => (jsonLookup kvs k).getD d
  | _ => d

/-- Python `j[0]`: `IndexError` on an empty sequence, `TypeError` on a
non-sequence; indexing a string yields its first character. -/
def index0 (j : Json) : Except PyErr Json :=
  match j with
  | .arr (x :: _) => .ok x
  | .arr [] => .error .indexError
  | .str s =>
    match s.data with
    | c :: _ => .ok (.str ⟨[c]⟩)
    | [] => .error .indexError
  | _ => .error .typeError

/-- Python truthiness of a decoded JSON value. -/
def truthy : Json → Bool
  | .null => false
  | .bool b => b
  | .num n => !(n == 0)
  | .str s => !(s == "")
  | .arr l => !l.isEmpty
  | .obj l => !l.isEmpty

/-- `j == "s"` between a decoded JSON value and a string literal
(Python equality across types is `False`). -/
def jsonIsStr (j : Json) (s : String) : Bool :=
  match j with
  | .str s' => s' == s
  | _ => false

/-- Python `str()` of a decoded JSON value; the string case is the only
one the recognition service's `error_message` field exercises, the
container cases are summarized. -/
def pyStrOf : Json → String
  | .null => "None"
  | .bool true => "True"
  | .bool false => "False"
  | .num n => toString n
  | .str s => s
  | .arr _ => "[...]"
  | .obj _ => "{...}"

/-! ## Recognition client (`AudioProcessor.recognize_song`, lines 113-141) -/

/-- The `return` form field of the recognition request (line 117). -/
def returnField : String := "apple_music,spotify"

/-- The configured third-party metadata providers: the comma-separated
entries of `returnField`, in order. -/
def configuredProviders : List String := ["apple_music", "spotify"]

/-- The dict returned on the success branch of `recognize_song`
(lines 128-135), field values as decoded JSON. -/
structure RecMeta where
  artist : Json
  title : Json
  album : Json
  release_date : Json
  label : Json
  image : Json

/-- The dynamic part of line 137's `"Song not recognized: ..."`
message: `result.get('error', {}).get('error_message', 'Unknown
error')`.  The second `.get` is called on whatever the body's `error`
field holds, so it raises an uncaught `AttributeError` when that value
is not a dict (e.g. a string). -/
def errorMessageOf (j : Json) : Except PyErr Json := do
  let e ← pyGetJ j "error" (Json.obj [])
  pyGetJ e "error_message" (Json.str "Unknown error")

/-- The body-handling of `recognize_song` (lines 125-138): dispatch on
`result['status'] == 'success' and result['result']`, then build the
metadata dict.  `some` is the returned dict, `none` the `return None`
of the not-recognized branch; `.error` is an uncaught Python exception
(only `requests.RequestException` is caught by the surrounding `try`). -/
def parseBody (j : Json) : Except PyErr (Option RecMeta) := do
  let st ← getItem j "status"
  if jsonIsStr st "success" then
    let res ← getItem j "result"
    if truthy res then
      let a ← getItem res "artist"
      let t ← getItem res "title"
      let al ← getItem res "album"
      let rd ← pyGetJ res "release_date" (Json.str "")
      let lb ← pyGetJ res "label" (Json.str "")
      let sp ← pyGetJ res "spotify" (Json.obj [])
      let alb ← pyGetJ sp "album" (Json.obj [])
      let imgs ← pyGetJ alb "images" (Json.arr [Json.obj []])
      let i0 ← index0 imgs
      let u ← pyGetJ i0 "url" (Json.str "")
      return (some ⟨a, t, al, rd, lb, u⟩)
    else do
      -- line 137 evaluates the message before `return None`
      let _m ← errorMessageOf j
      return none
  else do
    let _m ← errorMessageOf j
    return none

/-- The reason the not-recognized outcome carries: the `str()` of the
extracted message (raises like the print it models). -/
def notRecognizedReason (j : Json) : Except PyErr String :=
  (errorMessageOf j).map pyStrOf

/-- Outcome of the `requests.post` call as seen by `recognize_song`:
either a transport-level `requests.RequestException`, or a response
with an HTTP status code and a decoded JSON body (`none` when the body
is not valid JSON, in which case `response.json()` raises
`requests.exceptions.JSONDecodeError`, a `RequestException`). -/
inductive HttpOutcome where
  | transportError (msg : String)
  | response (status : Nat) (body : Option Json)

/-- `recognize_song` (lines 113-141) as a function of the transport
outcome.  `raise_for_status` raises `requests.HTTPError` for status
codes 400-599; every `RequestException` is caught and mapped to
`return None` (with a printed message).  `.ok none` models the
`return None` paths, `.error` an exception escaping the method. -/
def recognize_song (r : HttpOutcome) : Except PyErr (Option RecMeta) :=
  match r with
  | .transportError _ => .ok none
  | .response st body =>
    if 400 ≤ st ∧ st < 600 then .ok none
    else
      match body with
      | none => .ok none
      | some j => parseBody j

/-- Modelled from the spec: the artwork URL as claim C1 words it - the
`url` of the first image of the FIRST configured provider's album
images array, defaulting to empty when any nesting level is absent.
Stated only for comparison with the source's behaviour, which reads the
`'spotify'` key (line 134). -/
def claimedArtworkURL (body : Json) : String :=
  let res := jGetD body "result" (Json.obj [])
  let prov := jGetD res (configuredProviders.headD "") (Json.obj [])
  match jGetD (jGetD prov "album" (Json.obj [])) "images" (Json.arr []) with
  | .arr (img :: _) =>
    match jGetD img "url" (Json.str "") with
    | .str u => u
    | _ => ""
  | _ => ""

/-! ## Sampler (`AudioProcessor.create_sample`, lines 98-111) -/

/-- `start = (duration - 10000) // 2 if duration > 10000 else 0`
(line 104), durations in milliseconds. -/
def sampleStart (duration : Nat) : Nat :=
  if duration > 10000 then (duration - 10000) / 2 else 0

/-- `create_sample`'s slicing (lines 103-105): the track as a list of
PCM milliseconds, `audio[start:start+10000]`. -/
def create_sample {α : Type} (pcm : List α) : List α :=
  let start := sampleStart pcm.length
  (pcm.drop start).take 10000

/-! ## Filename sanitization (`apply_metadata`, line 264) -/

/-- Python `str.rstrip()`'s whitespace set (the ASCII part; the
filenames built here contain no further Unicode whitespace). -/
def pyIsSpaceChar (c : Char) : Bool :=
  c ∈ [' ', '\t', '\n', '\r', '\x0b', '\x0c']

/-- `c.isalnum() or c in (' ', '.', '-', '_')` (line 264; Python's
`isalnum` restricted to its ASCII part). -/
def keepChar (c : Char) : Bool :=
  c.isAlphanum || c ∈ [' ', '.', '-', '_']

/-- `str.rstrip()` on a character list: drop the trailing run of
whitespace. -/
def rstripList (l : List Char) : List Char :=
  (l.reverse.dropWhile pyIsSpaceChar).reverse

/-- Line 264: keep only the allowed characters, then `rstrip()`. -/
def sanitizeList (l : List Char) : List Char :=
  rstripList (l.filter keepChar)

/-- Filename sanitization on strings. -/
def sanitize (s : String) : String :=
  ⟨sanitizeList s.data⟩

/-! ## Comparison dialog (`MetadataComparisonDialog.get_edited_metadata`,
lines 38-43) -/

/-- The operator-editable fields (line 21 and line 39). -/
def dialogFields : List String := ["artist", "title", "album", "date"]

/-- `get_edited_metadata`: write each edit box's text into
`new_metadata` under its field name and return the dict.  `edits f` is
the text of the `QLineEdit` named `f` (each exists: the constructor
creates one per field, so the `if edit:` guard always passes). -/
def get_edited_metadata (new_metadata : PyDict) (edits : String → String) : PyDict :=
  dialogFields.foldl (fun m f => m.set f (edits f)) new_metadata

/-! ## Per-format tag writes (`MainWindow.apply_metadata`, lines 213-252)

Each branch is modelled as a transformer of the file's tag dictionary.
The tag state of a file is one `PyDict` whose keys are the native keys
of its container format (ID3 frame ids, Vorbis comment names, MP4 atom
names, or plain names for the generic fallback). -/

/-- Container formats as detected by `mutagen.File` (isinstance
dispatch, lines 215-251); `unknown` is `mutagen.File` returning
`None`. -/
inductive Format where
  | wav | mp3 | flac | mp4 | generic | unknown
deriving DecidableEq

/-- MP3 branch (lines 223-229): conditional ID3 text frames. -/
def mp3WriteTags (meta : PyDict) (tags : PyDict) : PyDict :=
  let t1 := if meta.hasKey "artist" then tags.set "TPE1" (meta.getV "artist") else tags
  let t2 := if meta.hasKey "title" then t1.set "TIT2" (meta.getV "title") else t1
  let t3 := if meta.hasKey "album" then t2.set "TALB" (meta.getV "album") else t2
  if meta.hasKey "date" then t3.set "TDRC" (meta.getV "date") else t3

/-- FLAC branch (lines 230-235): conditional Vorbis comments. -/
def flacWriteTags (meta : PyDict) (tags : PyDict) : PyDict :=
  let t1 := if meta.hasKey "artist" then tags.set "artist" (meta.getV "artist") else tags
  let t2 := if meta.hasKey "title" then t1.set "title" (meta.getV "title") else t1
  let t3 := if meta.hasKey "album" then t2.set "album" (meta.getV "album") else t2
  if meta.hasKey "date" then t3.set "date" (meta.getV "date") else t3

/-- MP4 branch (lines 236-241): conditional atom writes. -/
def mp4WriteTags (meta : PyDict) (tags : PyDict) : PyDict :=
  let t1 := if meta.hasKey "artist" then tags.set "©ART" (meta.getV "artist") else tags
  let t2 := if meta.hasKey "title" then t1.set "©nam" (meta.getV "title") else t1
  let t3 := if meta.hasKey "album" then t2.set "©alb" (meta.getV "album") else t2
  if meta.hasKey "date" then t3.set "©day" (meta.getV "date") else t3

/-- Generic fallback branch (lines 242-249): loop over the four plain
keys; `sup k` tells whether the file type supports key `k`
(`audio[key] = [...]` raises `KeyError` otherwise, which the branch
catches and turns into a warning). -/
def genericWriteTags (sup : String → Bool) (meta : PyDict) (tags : PyDict) : PyDict :=
  dialogFields.foldl
    (fun t k => if meta.hasKey k then (if sup k then t.set k (meta.getV k) else t) else t)
    tags

/-- Format dispatch of the tag-write step.  The WAV branch (lines
219-222) raises before touching anything: `WAVE.tags` is the class
attribute `None` inherited from mutagen's `FileType`, so line 219's
`audio.tags = WAVE.tags(audio)` calls `None(audio)` and raises
`TypeError` before any tag is assigned or saved - the file's tags are
left exactly as they were.  The `unknown` case is unreachable:
`apply_metadata` returns before writing, line 252. -/
def writeTags : Format → (String → Bool) → PyDict → PyDict → Except PyErr PyDict
  | .wav, _, _, _ => .error .typeError
  | .mp3, _, meta, tags => .ok (mp3WriteTags meta tags)
  | .flac, _, meta, tags => .ok (flacWriteTags meta tags)
  | .mp4, _, meta, tags => .ok (mp4WriteTags meta tags)
  | .generic, sup, meta, tags => .ok (genericWriteTags sup meta tags)
  | .unknown, _, _, tags => .ok tags

/-- The file's on-disk tag dictionary after the write step: the written
dictionary when the branch completed, the untouched previous one when
it raised (the exception aborts the branch before its `save()`). -/
def tagsAfterWrite (fmt : Format) (sup : String → Bool) (meta tags : PyDict) : PyDict :=
  match writeTags fmt sup meta tags with
  | .ok t => t
  | .error _ => tags

/-- The native tag key a metadata field lands in, per format. -/
def fieldKey : Format → String → String
  | .mp3, f =>
    if f = "artist" then "TPE1"
    else if f = "title" then "TIT2"
    else if f = "album" then "TALB"
    else if f = "date" then "TDRC" else f
  | .mp4, f =>
    if f = "artist" then "©ART"
    else if f = "title" then "©nam"
    else if f = "album" then "©alb"
    else if f = "date" then "©day" else f
  | _, f => f

/-! ## POSIX path operations used by the rename step (lines 263-266) -/

/-- Everything up to and including the last `'/'` of a path
(`p[:i]` with `i = p.rfind('/') + 1` in `posixpath.dirname`). -/
def lastSlashSplit (l : List Char) : List Char :=
  (l.reverse.dropWhile (fun c => c ≠ '/')).reverse

/-- Is the list entirely slashes? -/
def allSlashes (l : List Char) : Bool :=
  l.all (fun c => c = '/')

/-- `os.path.dirname` (POSIX): the head up to the last slash, with
trailing slashes stripped unless the head is all slashes. -/
def pyDirnameList (l : List Char) : List Char :=
  let head := lastSlashSplit l
  if head = [] then []
  else if allSlashes head then head
  else (head.reverse.dropWhile (fun c => c = '/')).reverse

/-- `os.path.dirname` on strings. -/
def pyDirname (s : String) : String :=
  ⟨pyDirnameList s.data⟩

/-- `os.path.join a b` (POSIX, two arguments). -/
def pyJoinList (a b : List Char) : List Char :=
  if b.head? = some '/' then b
  else if a = [] ∨ a.getLast? = some '/' then a ++ b
  else a ++ '/' :: b

/-- `os.path.join` on strings. -/
def pyJoin (a b : String) : String :=
  ⟨pyJoinList a.data b.data⟩

/-- The extension part of `os.path.splitext` (POSIX): the text from the
last dot of the basename on, provided some earlier basename character
is not a dot. -/
def pySplitextExtList (l : List Char) : List Char :=
  let base := l.reverse.takeWhile (fun c => c ≠ '/')
  let extRev := base.takeWhile (fun c => c ≠ '.')
  if extRev.length = base.length then []
  else if (base.drop (extRev.length + 1)).all (fun c => c = '.') then []
  else '.' :: extRev.reverse

/-- `os.path.splitext(s)[1]` on strings. -/
def pySplitextExt (s : String) : String :=
  ⟨pySplitextExtList s.data⟩

/-! ## The full apply pipeline (`MainWindow.apply_metadata`,
lines 213-268) -/

/-- The processed file: its path and its on-disk tag dictionary. -/
structure ApplyState where
  path : String
  tags : PyDict
deriving DecidableEq

/-- Result of one `apply_metadata` call: final file state, whether the
tag write's `save()` succeeded, whether the file was renamed, and the
exception that escaped the method, if any. -/
structure ApplyOutcome where
  st : ApplyState
  wroteTags : Bool
  renamed : Bool
  err : Option PyErr
deriving DecidableEq

/-- `embed_artwork` (lines 154-173): sets the format's artwork slot
(`APIC` frame, FLAC picture block, `covr` atom); for other formats it
only prints "Artwork embedding not supported". -/
def embedArt : Format → String → PyDict → PyDict
  | .mp3, art, tags => tags.set "APIC" art
  | .flac, art, tags => tags.set "PICTURE" art
  | .mp4, art, tags => tags.set "covr" art
  | _, _, tags => tags

/-- The rename target (lines 263-265): sanitize
`f"{metadata['artist']} - {metadata['title']}{os.path.splitext(file)[1]}"`
and join it onto the file's directory. -/
def renameTarget (meta : PyDict) (path : String) : String :=
  pyJoin (pyDirname path)
    (sanitize (meta.getV "artist" ++ " - " ++ meta.getV "title" ++ pySplitextExt path))

/-- The artwork step (lines 254-259): only when `'image'` is present
and truthy; a `None` download skips embedding; a failing post-embed
`save()` raises (second component).  The first component is the file
state the method goes on with. -/
def artworkStep (fmt : Format) (artDownload : Option String) (artSaveOk : Bool)
    (meta : PyDict) (st1 : ApplyState) : ApplyState × Option PyErr :=
  if (meta.get? "image").getD "" ≠ "" then
    match artDownload with
    | some art =>
      if artSaveOk then (⟨st1.path, embedArt fmt art st1.tags⟩, none)
      else (st1, some .writeError)
    | none => (st1, none)
  else (st1, none)

/-- `apply_metadata` (lines 213-268).  External effects are explicit
parameters: `sup` is the generic branch's key support, `saveOk` whether
the tag write's `save()` succeeds (a failing save raises out of the
method and leaves the file unchanged), `artDownload` the result of
`download_artwork` (`none`: no data, download failed or returned
nothing), `artSaveOk` whether the post-embed `save()` succeeds, and
`renameOk` whether `os.rename` succeeds (on failure the `OSError` is
caught and only a warning is printed, line 267-268). -/
def apply_metadata (fmt : Format) (sup : String → Bool)
    (saveOk : Bool) (artDownload : Option String) (artSaveOk : Bool) (renameOk : Bool)
    (meta : PyDict) (st : ApplyState) : ApplyOutcome :=
  if fmt = .unknown then ⟨st, false, false, none⟩  -- warning + early return, lines 250-252
  else
    match writeTags fmt sup meta st.tags with
    | .error e => ⟨st, false, false, some e⟩  -- branch raised before save (WAV, line 219)
    | .ok newTags =>
      if saveOk then
        let a := artworkStep fmt artDownload artSaveOk meta ⟨st.path, newTags⟩
        match a.2 with
        | some e => ⟨a.1, true, false, some e⟩
        | none =>
          -- rename step, lines 261-268; `metadata['artist']` /
          -- `metadata['title']` raise KeyError when absent, which the
          -- `except OSError` clause does not catch
          if meta.hasKey "artist" then
            if meta.hasKey "title" then
              if renameOk then ⟨⟨renameTarget meta st.path, a.1.tags⟩, true, true, none⟩
              else ⟨a.1, true, false, none⟩
            else ⟨a.1, true, false, some (.keyError "title")⟩
          else ⟨a.1, true, false, some (.keyError "artist")⟩
      else ⟨st, false, false, some .writeError⟩

/-! ## Helper lemmas -/

theorem dropWhile_self_idem {α : Type} (p : α → Bool) (l : List α) :
    (l.dropWhile p).dropWhile p = l.dropWhile p := by
  induction l with
  | nil => rfl
  | cons a l ih =>
    by_cases h : p a <;> simp [List.dropWhile_cons, h, ih]

theorem mem_of_mem_dropWhile {α : Type} {p : α → Bool} {c : α} {l : List α}
    (h : c ∈ l.dropWhile p) : c ∈ l := by
  induction l with
  | nil => simp at h
  | cons a l ih =>
    by_cases hp : p a
    · simp only [List.dropWhile_cons, hp, if_true] at h
      exact List.mem_cons_of_mem _ (ih h)
    · simpa [List.dropWhile_cons, hp] using h

theorem mem_of_mem_rstrip {c : Char} {l : List Char} (h : c ∈ rstripList l) : c ∈ l := by
  unfold rstripList at h
  rw [List.mem_reverse] at h
  exact List.mem_reverse.mp (mem_of_mem_dropWhile h)

theorem rstrip_idem (l : List Char) : rstripList (rstripList l) = rstripList l := by
  unfold rstripList
  rw [List.reverse_reverse, dropWhile_self_idem]

theorem sanitizeList_idem (l : List Char) : sanitizeList (sanitizeList l) = sanitizeList l := by
  unfold sanitizeList
  rw [List.filter_eq_self.mpr, rstrip_idem]
  intro c hc
  exact (List.mem_filter.mp (mem_of_mem_rstrip hc)).2

theorem rstrip_ne_nil {c : Char} {l : List Char} (hc : c ∈ l)
    (hsp : pyIsSpaceChar c = false) : rstripList l ≠ [] := by
  intro h
  unfold rstripList at h
  rw [List.reverse_eq_nil_iff] at h
  have := List.dropWhile_eq_nil_iff.mp h c (List.mem_reverse.mpr hc)
  rw [hsp] at this
  exact Bool.false_ne_true this

theorem sanitizeList_ne_nil {l : List Char} (h : ('-' : Char) ∈ l) : sanitizeList l ≠ [] := by
  unfold sanitizeList
  refine rstrip_ne_nil (List.mem_filter.mpr ⟨h, by decide⟩) (by decide)

theorem sanitizeList_no_slash (l : List Char) : ('/' : Char) ∉ sanitizeList l := by
  intro h
  have := (List.mem_filter.mp (mem_of_mem_rstrip h)).2
  simp [keepChar] at this

theorem string_data_append (s t : String) : (s ++ t).data = s.data ++ t.data := by
  cases s; cases t; rfl

/-! ## C9: filename sanitization is idempotent -/

/-- C9 (confirmed).  The line-264 sanitization (keep only letters,
digits, space, dot, hyphen, underscore, then trim trailing whitespace)
is idempotent: sanitizing an already-sanitized string returns it
unchanged. -/
theorem C9_sanitize_idempotent (s : String) : sanitize (sanitize s) = sanitize s :=
  congrArg String.mk (sanitizeList_idem s.data)

/-! ## C4: the sampler's window -/

/-- C4 (confirmed).  For a track of `D` PCM milliseconds,
`create_sample` (lines 98-111) takes `start = (D - 10000) / 2` (integer
division; `0` coincides at `D = 10000`) and exactly 10000 ms when
`D ≥ 10000`, and the whole track from `start = 0` when `D < 10000`. -/
theorem C4_sample_window {α : Type} (pcm : List α) :
    (10000 ≤ pcm.length →
      sampleStart pcm.length = (pcm.length - 10000) / 2 ∧
      (create_sample pcm).length = 10000) ∧
    (pcm.length < 10000 →
      sampleStart pcm.length = 0 ∧ create_sample pcm = pcm) := by
  constructor
  · intro h
    have hstart : sampleStart pcm.length = (pcm.length - 10000) / 2 := by
      unfold sampleStart
      split
      · rfl
      · have : pcm.length = 10000 := by omega
        simp [this]
    refine ⟨hstart, ?_⟩
    have hle : (pcm.length - 10000) / 2 ≤ pcm.length - 10000 := Nat.div_le_self _ _
    simp only [create_sample, List.length_take, List.length_drop, hstart]
    omega
  · intro h
    have hstart : sampleStart pcm.length = 0 := by
      unfold sampleStart
      split
      · omega
      · rfl
    refine ⟨hstart, ?_⟩
    simp only [create_sample, hstart, List.drop_zero]
    exact List.take_of_length_le (by omega)

/-- Witness for C4 at concrete tracks of 12000 ms and 5 ms. -/
theorem C4_sample_window_witness :
    (sampleStart (List.replicate 12000 (0 : Nat)).length = ((List.replicate 12000 (0 : Nat)).length - 10000) / 2 ∧
      (create_sample (List.replicate 12000 (0 : Nat))).length = 10000) ∧
    (sampleStart (List.replicate 5 (0 : Nat)).length = 0 ∧
      create_sample (List.replicate 5 (0 : Nat)) = List.replicate 5 (0 : Nat)) :=
  ⟨(C4_sample_window _).1 (by rw [List.length_replicate]; omega),
   (C4_sample_window _).2 (by rw [List.length_replicate]; omega)⟩

/-! ## Conditional-write helper lemmas -/

theorem get?_cond_set_ne (d : PyDict) (c : Prop) [Decidable c] (k k' v : String)
    (h : k ≠ k') : (if c then d.set k v else d).get? k' = d.get? k' := by
  split
  · exact PyDict.get?_set_ne d k k' v h
  · rfl

theorem get?_cond2_set_ne (d : PyDict) (c1 c2 : Prop) [Decidable c1] [Decidable c2]
    (k k' v : String) (h : k ≠ k') :
    (if c1 then (if c2 then d.set k v else d) else d).get? k' = d.get? k' := by
  split
  · split
    · exact PyDict.get?_set_ne d k k' v h
    · rfl
  · rfl

theorem edited_eq (new : PyDict) (edits : String → String) :
    get_edited_metadata new edits =
      (((new.set "artist" (edits "artist")).set "title" (edits "title")).set
        "album" (edits "album")).set "date" (edits "date") := rfl

theorem edited_get_artist (new : PyDict) (edits : String → String) :
    (get_edited_metadata new edits).get? "artist" = some (edits "artist") := by
  rw [edited_eq, PyDict.get?_set_ne _ _ _ _ (by decide), PyDict.get?_set_ne _ _ _ _ (by decide),
    PyDict.get?_set_ne _ _ _ _ (by decide), PyDict.get?_set_self]

theorem edited_get_title (new : PyDict) (edits : String → String) :
    (get_edited_metadata new edits).get? "title" = some (edits "title") := by
  rw [edited_eq, PyDict.get?_set_ne _ _ _ _ (by decide), PyDict.get?_set_ne _ _ _ _ (by decide),
    PyDict.get?_set_self]

theorem edited_get_album (new : PyDict) (edits : String → String) :
    (get_edited_metadata new edits).get? "album" = some (edits "album") := by
  rw [edited_eq, PyDict.get?_set_ne _ _ _ _ (by decide), PyDict.get?_set_self]

theorem edited_get_date (new : PyDict) (edits : String → String) :
    (get_edited_metadata new edits).get? "date" = some (edits "date") := by
  rw [edited_eq, PyDict.get?_set_self]

theorem edited_get (new : PyDict) (edits : String → String) {f : String}
    (hf : f ∈ dialogFields) :
    (get_edited_metadata new edits).get? f = some (edits f) := by
  simp only [dialogFields, List.mem_cons, List.not_mem_nil, or_false] at hf
  rcases hf with rfl | rfl | rfl | rfl
  · exact edited_get_artist new edits
  · exact edited_get_title new edits
  · exact edited_get_album new edits
  · exact edited_get_date new edits

/-! ## C10: the accepted dialog returns all four operator fields -/

/-- C10 (confirmed).  `get_edited_metadata` (lines 38-43) returns a
dict in which each of `artist`, `title`, `album`, `date` is present and
equal to the corresponding edit box's text `edits f` - including the
empty string, which is returned as a present-but-empty value, never
omitted. -/
theorem C10_edited_metadata_has_all_fields (new : PyDict) (edits : String → String)
    (f : String) (hf : f ∈ dialogFields) :
    (get_edited_metadata new edits).hasKey f = true ∧
    (get_edited_metadata new edits).get? f = some (edits f) := by
  have hget := edited_get new edits hf
  exact ⟨by rw [PyDict.hasKey, hget]; rfl, hget⟩

/-- Witness for C10: a dialog over a one-key dict whose `date` box was
left empty still yields a present, empty `date` entry. -/
theorem C10_edited_metadata_has_all_fields_witness :
    (get_edited_metadata [("artist", "A")] (fun g => if g = "title" then "T" else "")).hasKey
      "date" = true ∧
    (get_edited_metadata [("artist", "A")] (fun g => if g = "title" then "T" else "")).get?
      "date" = some "" :=
  C10_edited_metadata_has_all_fields [("artist", "A")]
    (fun g => if g = "title" then "T" else "") "date" (by decide)

/-! ## C5: the comparison-and-edit flow and empty values -/

/-- The recognition dict of a match whose `artist` field came back
empty (keys as returned by `recognize_song`, lines 128-135). -/
def c5NewMeta : PyDict :=
  [("artist", ""), ("title", "T"), ("album", "Al"),
   ("release_date", "2020-01-01"), ("label", ""), ("image", "")]

/-- Edit-box texts: the operator accepts the dialog unchanged, so each
box still holds the recognized value (`new_metadata.get(field, '')`,
line 28) - empty for `artist` and for the `date` box (the recognition
dict has no `date` key). -/
def c5Edits : String → String :=
  fun f => if f = "title" then "T" else if f = "album" then "Al" else ""

/-- The pre-write on-disk tags of the C5 counterexample file. -/
def c5OldTags : PyDict := [("artist", "Old")]

/-- C5 counterexample.  In the comparison-and-edit flow an empty
recognized/edited `artist` DOES erase the existing on-disk value: for a
FLAC file whose on-disk artist is `"Old"`, accepting the dialog with an
empty artist box writes `""` over it - there is no trimming and no
non-empty check anywhere on the path (lines 38-43, 207-211, 230-235). -/
theorem C5_counterexample :
    c5OldTags.get? "artist" = some "Old" ∧
    (flacWriteTags (get_edited_metadata c5NewMeta c5Edits) c5OldTags).get?
      "artist" = some "" ∧
    (flacWriteTags (get_edited_metadata c5NewMeta c5Edits) c5OldTags).get?
      "artist" ≠ some "Old" := by
  decide

/-- C5 as amended (proved).  In the comparison-and-edit flow every
field of {artist, title, album, date} is present in the edited record
and is written to the file unconditionally with the edit-box text -
with no trimming and no non-empty test - so an empty value overwrites
(erases) the on-disk value rather than preserving it. -/
theorem C5_edited_values_overwrite (new old : PyDict) (edits : String → String)
    (f : String) (hf : f ∈ dialogFields) :
    (flacWriteTags (get_edited_metadata new edits) old).get? f = some (edits f) := by
  have ha : (get_edited_metadata new edits).hasKey "artist" = true := by
    rw [PyDict.hasKey, edited_get_artist]; rfl
  have ht : (get_edited_metadata new edits).hasKey "title" = true := by
    rw [PyDict.hasKey, edited_get_title]; rfl
  have hal : (get_edited_metadata new edits).hasKey "album" = true := by
    rw [PyDict.hasKey, edited_get_album]; rfl
  have hd : (get_edited_metadata new edits).hasKey "date" = true := by
    rw [PyDict.hasKey, edited_get_date]; rfl
  have va : (get_edited_metadata new edits).getV "artist" = edits "artist" := by
    rw [PyDict.getV, edited_get_artist]; rfl
  have vt : (get_edited_metadata new edits).getV "title" = edits "title" := by
    rw [PyDict.getV, edited_get_title]; rfl
  have val : (get_edited_metadata new edits).getV "album" = edits "album" := by
    rw [PyDict.getV, edited_get_album]; rfl
  have vd : (get_edited_metadata new edits).getV "date" = edits "date" := by
    rw [PyDict.getV, edited_get_date]; rfl
  simp only [flacWriteTags, ha, ht, hal, hd, if_true, va, vt, val, vd]
  simp only [dialogFields, List.mem_cons, List.not_mem_nil, or_false] at hf
  rcases hf with rfl | rfl | rfl | rfl
  · rw [PyDict.get?_set_ne _ _ _ _ (by decide), PyDict.get?_set_ne _ _ _ _ (by decide),
      PyDict.get?_set_ne _ _ _ _ (by decide), PyDict.get?_set_self]
  · rw [PyDict.get?_set_ne _ _ _ _ (by decide), PyDict.get?_set_ne _ _ _ _ (by decide),
      PyDict.get?_set_self]
  · rw [PyDict.get?_set_ne _ _ _ _ (by decide), PyDict.get?_set_self]
  · rw [PyDict.get?_set_self]

/-- Witness for C5's amended theorem: an all-empty edit writes an empty
artist over the file's previous value. -/
theorem C5_edited_values_overwrite_witness :
    (flacWriteTags (get_edited_metadata c5NewMeta (fun _ => "")) c5OldTags).get?
      "artist" = some "" :=
  C5_edited_values_overwrite c5NewMeta c5OldTags (fun _ => "") "artist" (by decide)

/-! ## C6: the label field -/

/-- A metadata record carrying a label value. -/
def c6Meta : PyDict := [("label", "L")]

/-- C6 counterexample.  The generic fallback branch (lines 242-249)
loops over `['artist', 'title', 'album', 'date']` only, so it does NOT
persist the label: writing a record whose label is `"L"` to a
generic-fallback file with no tags leaves no label entry. -/
theorem C6_counterexample :
    c6Meta.get? "label" = some "L" ∧
    (tagsAfterWrite .generic (fun _ => true) c6Meta []).get? "label" = none ∧
    (tagsAfterWrite .generic (fun _ => true) c6Meta []).get? "label" ≠ some "L" := by
  decide

/-- C6 as amended (proved).  For every write of a record containing a
label value, the label is silently dropped on the MP3/ID3, FLAC, MP4
AND generic-fallback variants alike: the write completes without
raising (first conjunct) and the file's label entry is left exactly as
it was (second conjunct) - in particular the generic fallback does not
persist it, since its write loop covers only artist/title/album/date. -/
theorem C6_label_never_persisted (fmt : Format) (sup : String → Bool)
    (meta tags : PyDict)
    (h : fmt = .mp3 ∨ fmt = .flac ∨ fmt = .mp4 ∨ fmt = .generic) :
    writeTags fmt sup meta tags = .ok (tagsAfterWrite fmt sup meta tags) ∧
    (tagsAfterWrite fmt sup meta tags).get? "label" = tags.get? "label" := by
  rcases h with rfl | rfl | rfl | rfl
  · refine ⟨rfl, ?_⟩
    simp only [tagsAfterWrite, writeTags, mp3WriteTags]
    rw [get?_cond_set_ne _ _ _ _ _ (by decide), get?_cond_set_ne _ _ _ _ _ (by decide),
      get?_cond_set_ne _ _ _ _ _ (by decide), get?_cond_set_ne _ _ _ _ _ (by decide)]
  · refine ⟨rfl, ?_⟩
    simp only [tagsAfterWrite, writeTags, flacWriteTags]
    rw [get?_cond_set_ne _ _ _ _ _ (by decide), get?_cond_set_ne _ _ _ _ _ (by decide),
      get?_cond_set_ne _ _ _ _ _ (by decide), get?_cond_set_ne _ _ _ _ _ (by decide)]
  · refine ⟨rfl, ?_⟩
    simp only [tagsAfterWrite, writeTags, mp4WriteTags]
    rw [get?_cond_set_ne _ _ _ _ _ (by decide), get?_cond_set_ne _ _ _ _ _ (by decide),
      get?_cond_set_ne _ _ _ _ _ (by decide), get?_cond_set_ne _ _ _ _ _ (by decide)]
  · refine ⟨rfl, ?_⟩
    simp only [tagsAfterWrite, writeTags, genericWriteTags, dialogFields, List.foldl]
    rw [get?_cond2_set_ne _ _ _ _ _ _ (by decide), get?_cond2_set_ne _ _ _ _ _ _ (by decide),
      get?_cond2_set_ne _ _ _ _ _ _ (by decide), get?_cond2_set_ne _ _ _ _ _ _ (by decide)]

/-- Witness for C6's amended theorem on a FLAC file that already holds
a label entry: the write raises nothing and leaves it untouched. -/
theorem C6_label_never_persisted_witness :
    writeTags .flac (fun _ => true) c6Meta [("label", "old")] =
      .ok (tagsAfterWrite .flac (fun _ => true) c6Meta [("label", "old")]) ∧
    (tagsAfterWrite .flac (fun _ => true) c6Meta [("label", "old")]).get? "label" =
      PyDict.get? [("label", "old")] "label" :=
  C6_label_never_persisted .flac (fun _ => true) c6Meta [("label", "old")]
    (Or.inr (Or.inl rfl))

/-! ## C3: partial updates and unset fields -/

/-- C3 (confirmed).  For every format, every record and every field of
{artist, title, album, date} that the record leaves unset, the write
step leaves that field's on-disk value unchanged: the MP3/ID3, FLAC,
MP4 and generic branches assign only under a `'field' in metadata`
guard, and the WAV branch raises `TypeError` at line 219 (before any
assignment or save), leaving the file's tags - unset fields included -
exactly as they were. -/
theorem C3_unset_fields_preserved (fmt : Format) (sup : String → Bool)
    (meta tags : PyDict) (f : String) (hf : f ∈ dialogFields)
    (hunset : meta.hasKey f = false) :
    (tagsAfterWrite fmt sup meta tags).get? (fieldKey fmt f) =
      tags.get? (fieldKey fmt f) := by
  simp only [dialogFields, List.mem_cons, List.not_mem_nil, or_false] at hf
  cases fmt with
  | wav => rfl
  | unknown => rfl
  | mp3 =>
    rcases hf with rfl | rfl | rfl | rfl <;>
      simp only [tagsAfterWrite, writeTags, mp3WriteTags, fieldKey, hunset,
        Bool.false_eq_true, if_false, if_true, reduceIte] <;>
      rw [get?_cond_set_ne _ _ _ _ _ (by decide), get?_cond_set_ne _ _ _ _ _ (by decide),
        get?_cond_set_ne _ _ _ _ _ (by decide)]
  | flac =>
    rcases hf with rfl | rfl | rfl | rfl <;>
      simp only [tagsAfterWrite, writeTags, flacWriteTags, fieldKey, hunset,
        Bool.false_eq_true, if_false] <;>
      rw [get?_cond_set_ne _ _ _ _ _ (by decide), get?_cond_set_ne _ _ _ _ _ (by decide),
        get?_cond_set_ne _ _ _ _ _ (by decide)]
  | mp4 =>
    rcases hf with rfl | rfl | rfl | rfl <;>
      simp only [tagsAfterWrite, writeTags, mp4WriteTags, fieldKey, hunset,
        Bool.false_eq_true, if_false, if_true, reduceIte] <;>
      rw [get?_cond_set_ne _ _ _ _ _ (by decide), get?_cond_set_ne _ _ _ _ _ (by decide),
        get?_cond_set_ne _ _ _ _ _ (by decide)]
  | generic =>
    rcases hf with rfl | rfl | rfl | rfl <;>
      simp only [tagsAfterWrite, writeTags, genericWriteTags, dialogFields, List.foldl,
        fieldKey, hunset, Bool.false_eq_true, if_false] <;>
      rw [get?_cond2_set_ne _ _ _ _ _ _ (by decide), get?_cond2_set_ne _ _ _ _ _ _ (by decide),
        get?_cond2_set_ne _ _ _ _ _ _ (by decide)]

/-- Witness for C3: a FLAC write that sets only `artist` leaves the
file's album entry as it was, and so does a WAV "write" (which raises
before touching the file). -/
theorem C3_unset_fields_preserved_witness :
    (tagsAfterWrite .flac (fun _ => true) [("artist", "A")] [("album", "X")]).get?
        (fieldKey .flac "album") =
      PyDict.get? [("album", "X")] (fieldKey .flac "album") ∧
    (tagsAfterWrite .wav (fun _ => true) [("artist", "A")] [("album", "X")]).get?
        (fieldKey .wav "album") =
      PyDict.get? [("album", "X")] (fieldKey .wav "album") :=
  ⟨C3_unset_fields_preserved .flac (fun _ => true) [("artist", "A")] [("album", "X")]
      "album" (by decide) (by decide),
    C3_unset_fields_preserved .wav (fun _ => true) [("artist", "A")] [("album", "X")]
      "album" (by decide) (by decide)⟩

/-! ## C1: success-response field mapping and the artwork provider -/

/-- A success body whose ONLY album-art block is under the first
configured provider, `apple_music` (`configuredProviders.headD ""`);
there is no `spotify` key. -/
def c1AppleArtBody : Json :=
  .obj [("status", .str "success"),
        ("result", .obj
          [("artist", .str "A"), ("title", .str "T"), ("album", .str "Al"),
           ("apple_music", .obj
             [("album", .obj
               [("images", .arr [.obj [("url", .str "A.jpg")]])])])])]

/-- C1 counterexample.  The claim says the artwork URL is taken from
the FIRST configured provider (`apple_music`); the code reads the
`'spotify'` key (line 134).  On a success body carrying apple_music art
only, the first configured provider's first image URL is `"A.jpg"`, but
the parser returns an empty artwork URL. -/
theorem C1_counterexample :
    recognize_song (.response 200 (some c1AppleArtBody)) =
      .ok (some ⟨.str "A", .str "T", .str "Al", .str "", .str "", .str ""⟩) ∧
    claimedArtworkURL c1AppleArtBody = "A.jpg" ∧
    Json.str "" ≠ Json.str "A.jpg" := by
  refine ⟨rfl, rfl, ?_⟩
  intro h
  injection h with h
  exact absurd h (by decide)

/-- Builder for a success body: mandatory `artist`/`title`/`album`
values, optional `release_date`, `label`, and an optional spotify art
block holding one image with the given URL. -/
def mkSuccessBody (a t al : Json) (rd lbl : Option Json) (spUrl : Option String) : Json :=
  .obj [("status", .str "success"),
        ("result", .obj
          ([("artist", a), ("title", t), ("album", al)]
            ++ (match rd with | some v => [("release_date", v)] | none => [])
            ++ (match lbl with | some v => [("label", v)] | none => [])
            ++ (match spUrl with
                | some u =>
                  [("spotify", Json.obj
                    [("album", Json.obj
                      [("images", Json.arr [Json.obj [("url", Json.str u)]])])])]
                | none => [])))]

/-- The §8 example body: a success result with no provider art block. -/
def c1Example8Body : Json :=
  .obj [("status", .str "success"),
        ("result", .obj
          [("artist", .str "A"), ("title", .str "T"), ("album", .str "Al"),
           ("release_date", .str "2020-01-01")])]

/-- C1 as amended (proved).  On a success response with a non-empty
result carrying `artist`, `title` and `album`, the parser returns a
record whose artist/title/album are the result's fields, whose date
comes from `release_date` (default empty), whose label defaults to
empty, and whose artwork URL is the url of the first image of the
`spotify` provider's album images array - the SECOND entry of the
configured provider list - defaulting to empty when the block is
absent.  In particular the §8 example yields artist "A", title "T",
album "Al", date "2020-01-01" and an empty artwork URL. -/
theorem C1_success_mapping_spotify_artwork :
    (∀ (a t al : Json) (rd lbl : Option Json) (spUrl : Option String),
      recognize_song (.response 200 (some (mkSuccessBody a t al rd lbl spUrl))) =
        .ok (some ⟨a, t, al, rd.getD (.str ""), lbl.getD (.str ""),
          .str (spUrl.getD "")⟩)) ∧
    recognize_song (.response 200 (some c1Example8Body)) =
      .ok (some ⟨.str "A", .str "T", .str "Al", .str "2020-01-01", .str "", .str ""⟩) := by
  constructor
  · intro a t al rd lbl spUrl
    rcases rd with _ | rd <;> rcases lbl with _ | lbl <;> rcases spUrl with _ | spUrl <;> rfl
  · rfl

/-! ## C2: the recognition client's failure boundary -/

theorem exc_bind_ok {e a b : Type} (x : a) (f : a → Except e b) :
    (Except.ok x >>= f) = f x := rfl

/-- A success body whose result lacks the `title` key. -/
def c2BadSuccessBody : Json :=
  .obj [("status", .str "success"), ("result", .obj [("artist", .str "A")])]

/-- C2 counterexample.  The claim says the client never throws for any
JSON response body; but on a 200 response whose body is
`{"status": "success", "result": {"artist": "A"}}` the success branch
evaluates `result['result']['title']` (line 130) and the uncaught
`KeyError` escapes the method (`except` catches only
`requests.RequestException`, line 139). -/
theorem C2_counterexample :
    recognize_song (.response 200 (some c2BadSuccessBody)) =
      .error (.keyError "title") := rfl

/-- The §8 error example body. -/
def c2ErrBody : Json :=
  .obj [("status", .str "error"),
        ("error", .obj [("error_message", .str "no match")])]

/-- A body whose `error` field is a string, not an object: line 137's
second `.get` then raises an uncaught `AttributeError`. -/
def c2ErrStrBody : Json :=
  .obj [("status", .str "error"), ("error", .str "oops")]

/-- C2 as amended (proved).  The client returns not-recognized without
throwing for: transport errors; HTTP 400-599 responses
(`raise_for_status`, caught); and undecodable JSON bodies (the
`JSONDecodeError` is a `RequestException`).  A body whose status is not
`"success"`, or a success body with an empty (falsy) result, yields
not-recognized carrying the provider's `error_message` when present,
else `"Unknown error"` - PROVIDED line 137's message lookup itself
evaluates, i.e. the body's `error` field, when present, is an object;
e.g. the §8 error example yields the reason `"no match"`.  When it is
not an object (e.g. `{"status":"error","error":"oops"}`) the `.get`
chain raises an uncaught `AttributeError` (last conjunct), and success
bodies with a non-empty result lacking required fields raise an
uncaught `KeyError` (see the counterexample) - so the client is NOT
total over all JSON bodies. -/
theorem C2_failure_paths_return_not_recognized :
    (∀ msg, recognize_song (.transportError msg) = .ok none) ∧
    (∀ (st : Nat) (body : Option Json), 400 ≤ st → st < 600 →
      recognize_song (.response st body) = .ok none) ∧
    (∀ st : Nat, recognize_song (.response st none) = .ok none) ∧
    (∀ (j s m : Json), getItem j "status" = .ok s → jsonIsStr s "success" = false →
      errorMessageOf j = .ok m → parseBody j = .ok none) ∧
    (∀ (j s r m : Json), getItem j "status" = .ok s → jsonIsStr s "success" = true →
      getItem j "result" = .ok r → truthy r = false → errorMessageOf j = .ok m →
      parseBody j = .ok none) ∧
    (recognize_song (.response 200 (some c2ErrBody)) = .ok none ∧
      notRecognizedReason c2ErrBody = .ok "no match") ∧
    recognize_song (.response 200 (some c2ErrStrBody)) = .error .attributeError := by
  refine ⟨fun msg => rfl, ?_, ?_, ?_, ?_, ⟨rfl, rfl⟩, rfl⟩
  · intro st body h1 h2
    simp only [recognize_song]
    rw [if_pos ⟨h1, h2⟩]
  · intro st
    simp only [recognize_song]
    split
    · rfl
    · rfl
  · intro j s m h hs hm
    simp only [parseBody, h, exc_bind_ok, hs, Bool.false_eq_true, if_false, hm]
    rfl
  · intro j s r m h hs hr htr hm
    simp only [parseBody, h, exc_bind_ok, hs, if_true, hr, htr, Bool.false_eq_true,
      if_false, hm]
    rfl

/-- Witness for C2's amended theorem: a 404 response comes back as
not-recognized, and so does the §8 error body (whose message lookup
evaluates to "no match" without raising). -/
theorem C2_failure_paths_return_not_recognized_witness :
    recognize_song (.response 404 (some (Json.obj []))) = .ok none ∧
    parseBody c2ErrBody = .ok none :=
  ⟨C2_failure_paths_return_not_recognized.2.1 404 (some (Json.obj []))
      (by omega) (by omega),
    C2_failure_paths_return_not_recognized.2.2.2.1 c2ErrBody (Json.str "error")
      (Json.str "no match") rfl rfl rfl⟩

/-! ## Path lemmas for C7 -/

theorem dropWhile_append_of_all {α : Type} (p : α → Bool) {xs : List α} (ys : List α)
    (h : ∀ x ∈ xs, p x = true) : (xs ++ ys).dropWhile p = ys.dropWhile p := by
  induction xs with
  | nil => rfl
  | cons a xs ih =>
    simp only [List.cons_append, List.dropWhile_cons, h a (List.mem_cons_self a xs), if_true]
    exact ih (fun x hx => h x (List.mem_cons_of_mem a hx))

theorem dropWhile_cons_false {α : Type} (p : α → Bool) (a : α) (l : List α)
    (h : p a = false) : (a :: l).dropWhile p = a :: l := by
  simp [List.dropWhile_cons, h]

theorem dropWhile_head_false {α : Type} {p : α → Bool} :
    ∀ {l : List α} {a : α} {t : List α}, l.dropWhile p = a :: t → p a = false := by
  intro l
  induction l with
  | nil => intro a t h; cases h
  | cons b l ih =>
    intro a t h
    by_cases hb : p b
    · rw [List.dropWhile_cons, if_pos hb] at h
      exact ih h
    · rw [List.dropWhile_cons, if_neg hb] at h
      cases h
      exact Bool.not_eq_true _ |>.mp hb

/-- The possible shapes of a `pyDirnameList` output: empty, all
slashes, or ending in a non-slash. -/
def dirShape (d : List Char) : Prop :=
  d = [] ∨ (d ≠ [] ∧ allSlashes d = true) ∨ (∃ c, d.getLast? = some c ∧ c ≠ '/')

theorem pyDirnameList_shape (l : List Char) : dirShape (pyDirnameList l) := by
  unfold pyDirnameList
  by_cases h0 : lastSlashSplit l = []
  · rw [if_pos h0]
    exact Or.inl rfl
  · rw [if_neg h0]
    by_cases h1 : allSlashes (lastSlashSplit l) = true
    · rw [if_pos h1]
      exact Or.inr (Or.inl ⟨h0, h1⟩)
    · rw [if_neg h1]
      have hx : ∃ x ∈ lastSlashSplit l, x ≠ '/' := by
        by_contra hc
        push_neg at hc
        exact h1 (by simp only [allSlashes, List.all_eq_true, decide_eq_true_eq]; exact hc)
      obtain ⟨x, hx, hxne⟩ := hx
      cases hdw : (lastSlashSplit l).reverse.dropWhile (fun c => c = '/') with
      | nil =>
        exfalso
        have := List.dropWhile_eq_nil_iff.mp hdw x (List.mem_reverse.mpr hx)
        simp only [decide_eq_true_eq] at this
        exact hxne this
      | cons c rest =>
        refine Or.inr (Or.inr ⟨c, ?_, ?_⟩)
        · rw [List.getLast?_reverse]
          rfl
        · have := dropWhile_head_false hdw
          simpa using this

theorem pyDirnameList_join (d n : List Char) (hd : dirShape d) (hn : n ≠ [])
    (hns : ∀ c ∈ n, c ≠ '/') : pyDirnameList (pyJoinList d n) = d := by
  have hdropn : ∀ ys : List Char,
      (n.reverse ++ ys).dropWhile (fun c => c ≠ '/') = ys.dropWhile (fun c => c ≠ '/') := by
    intro ys
    refine dropWhile_append_of_all _ ys ?_
    intro x hx
    simp only [decide_eq_true_eq]
    exact hns x (List.mem_reverse.mp hx)
  have hhead : ¬ n.head? = some '/' := by
    cases n with
    | nil => exact absurd rfl hn
    | cons c0 n' =>
      simp only [List.head?_cons, Option.some.injEq]
      exact hns c0 (List.mem_cons_self c0 n')
  unfold pyJoinList
  rw [if_neg hhead]
  rcases hd with rfl | ⟨hne, hall⟩ | ⟨c, hlast, hcne⟩
  · rw [if_pos (Or.inl rfl), List.nil_append]
    unfold pyDirnameList lastSlashSplit
    have : n.reverse.dropWhile (fun c => c ≠ '/') = [] := by
      refine List.dropWhile_eq_nil_iff.mpr ?_
      intro x hx
      simp only [decide_eq_true_eq]
      exact hns x (List.mem_reverse.mp hx)
    rw [this, List.reverse_nil, if_pos rfl]
  · have hrevne : d.reverse ≠ [] := by
      simpa using hne
    obtain ⟨c, r, hr⟩ : ∃ c r, d.reverse = c :: r := by
      cases hrev : d.reverse with
      | nil => exact absurd hrev hrevne
      | cons c r => exact ⟨c, r, rfl⟩
    have hc : c = '/' := by
      have hcmem : c ∈ d := List.mem_reverse.mp (hr ▸ List.mem_cons_self c r)
      have := (List.all_eq_true.mp hall) c hcmem
      simpa using this
    have hlast : d.getLast? = some '/' := by
      rw [← List.head?_reverse, hr, hc, List.head?_cons]
    rw [if_pos (Or.inr hlast)]
    unfold pyDirnameList lastSlashSplit
    rw [List.reverse_append, hdropn, hr, hc, dropWhile_cons_false _ _ _ (by simp),
      ← hc, ← hr, List.reverse_reverse]
    rw [if_neg hne, if_pos hall]
  · have hne : d ≠ [] := by
      intro h
      rw [h] at hlast
      cases hlast
    have hrev : d.reverse = c :: (d.reverse.tail) := by
      cases hr : d.reverse with
      | nil => exact absurd (List.reverse_eq_nil_iff.mp hr) hne
      | cons x r =>
        have : d.getLast? = some x := by rw [← List.head?_reverse, hr, List.head?_cons]
        rw [hlast] at this
        cases this
        rfl
    have hjoin : ¬ (d = [] ∨ d.getLast? = some '/') := by
      rintro (h | h)
      · exact hne h
      · rw [hlast] at h
        cases h
        exact hcne rfl
    rw [if_neg hjoin]
    have hrewrite : (d ++ '/' :: n).reverse = n.reverse ++ '/' :: d.reverse := by
      rw [List.reverse_append, List.reverse_cons, List.append_assoc, List.singleton_append]
    have hstep1 : lastSlashSplit (d ++ '/' :: n) = d ++ ['/'] := by
      unfold lastSlashSplit
      rw [hrewrite, hdropn, dropWhile_cons_false _ _ _ (by simp), List.reverse_cons,
        List.reverse_reverse]
    have hheadne : d ++ ['/'] ≠ [] := by simp
    have hnotall : ¬ allSlashes (d ++ ['/']) = true := by
      intro hall
      have hcmem : c ∈ d ++ ['/'] := by
        refine List.mem_append.mpr (Or.inl ?_)
        exact List.mem_reverse.mp (hrev ▸ List.mem_cons_self c _)
      have := (List.all_eq_true.mp hall) c hcmem
      exact hcne (by simpa using this)
    unfold pyDirnameList
    rw [hstep1, if_neg hheadne, if_neg hnotall]
    have hstep2 : (d ++ ['/']).reverse = '/' :: d.reverse := by
      rw [List.reverse_append]
      rfl
    have hstep3 : ('/' :: d.reverse).dropWhile (fun c => c = '/') = d.reverse := by
      rw [List.dropWhile_cons, if_pos (by decide), hrev,
        dropWhile_cons_false _ _ _ (by simpa using hcne), ← hrev]
    rw [hstep2, hstep3, List.reverse_reverse]

theorem artworkStep_path (fmt : Format) (artDownload : Option String) (artSaveOk : Bool)
    (meta : PyDict) (st1 : ApplyState) :
    (artworkStep fmt artDownload artSaveOk meta st1).1.path = st1.path := by
  unfold artworkStep
  repeat' split
  all_goals rfl

theorem renameTarget_dirname (meta : PyDict) (p : String) :
    pyDirname (renameTarget meta p) = pyDirname p := by
  have hmem : ('-' : Char) ∈
      (meta.getV "artist" ++ " - " ++ meta.getV "title" ++ pySplitextExt p).data := by
    rw [string_data_append, string_data_append, string_data_append]
    refine List.mem_append.mpr (Or.inl (List.mem_append.mpr
      (Or.inl (List.mem_append.mpr (Or.inr ?_)))))
    decide
  show String.mk (pyDirnameList (pyJoinList (pyDirnameList p.data)
      (sanitizeList
        (meta.getV "artist" ++ " - " ++ meta.getV "title" ++ pySplitextExt p).data))) =
    String.mk (pyDirnameList p.data)
  apply congrArg String.mk
  apply pyDirnameList_join
  · exact pyDirnameList_shape p.data
  · exact sanitizeList_ne_nil hmem
  · intro c hc heq
    rw [heq] at hc
    exact sanitizeList_no_slash _ hc

/-! ## C7: write-before-rename, same directory, no deletion -/

/-- C7 (confirmed).  For every format, support map, failure pattern and
metadata record, `apply_metadata` (lines 213-268): renames only when
the tag write's save succeeded (in particular never on an unsupported
format or a failed write); keeps the file's directory unchanged
(`os.path.join(os.path.dirname(file), sanitized)` with a sanitized name
that is never empty and never contains a slash); and never deletes the
file - the final state is the file either under its original path or
under the rename target, nothing else. -/
theorem C7_rename_safety (fmt : Format) (sup : String → Bool) (saveOk : Bool)
    (artDownload : Option String) (artSaveOk renameOk : Bool) (meta : PyDict)
    (st : ApplyState) :
    ((apply_metadata fmt sup saveOk artDownload artSaveOk renameOk meta st).renamed = true →
      (apply_metadata fmt sup saveOk artDownload artSaveOk renameOk meta st).wroteTags
        = true) ∧
    pyDirname (apply_metadata fmt sup saveOk artDownload artSaveOk renameOk meta st).st.path =
      pyDirname st.path ∧
    ((apply_metadata fmt sup saveOk artDownload artSaveOk renameOk meta st).st.path = st.path ∨
      (apply_metadata fmt sup saveOk artDownload artSaveOk renameOk meta st).st.path =
        renameTarget meta st.path) := by
  unfold apply_metadata
  by_cases hf : fmt = Format.unknown
  · rw [if_pos hf]
    exact ⟨by simp, rfl, Or.inl rfl⟩
  · rw [if_neg hf]
    split
    next e heq => exact ⟨by simp, rfl, Or.inl rfl⟩
    next newTags heq =>
      by_cases hs : saveOk = true
      · rw [if_pos hs]
        have hpath := artworkStep_path fmt artDownload artSaveOk meta ⟨st.path, newTags⟩
        cases ha : (artworkStep fmt artDownload artSaveOk meta ⟨st.path, newTags⟩).2 with
        | some e =>
          simp only [ha]
          exact ⟨by simp, by rw [hpath], Or.inl hpath⟩
        | none =>
          simp only [ha]
          by_cases hart : meta.hasKey "artist" = true
          · rw [if_pos hart]
            by_cases htit : meta.hasKey "title" = true
            · rw [if_pos htit]
              by_cases hrn : renameOk = true
              · rw [if_pos hrn]
                exact ⟨by simp, renameTarget_dirname meta st.path, Or.inr rfl⟩
              · rw [if_neg hrn]
                exact ⟨by simp, by rw [hpath], Or.inl hpath⟩
            · rw [if_neg htit]
              exact ⟨by simp, by rw [hpath], Or.inl hpath⟩
          · rw [if_neg hart]
            exact ⟨by simp, by rw [hpath], Or.inl hpath⟩
      · rw [if_neg hs]
        exact ⟨by simp, rfl, Or.inl rfl⟩

/-- Witness for C7 at a concrete FLAC file `a/b.flac` that gets renamed:
the tag write succeeded, and the final path is in the same directory. -/
theorem C7_rename_safety_witness :
    (apply_metadata .flac (fun _ => true) true none true true
        [("artist", "A"), ("title", "T")] ⟨"a/b.flac", []⟩).wroteTags = true ∧
    pyDirname (apply_metadata .flac (fun _ => true) true none true true
        [("artist", "A"), ("title", "T")] ⟨"a/b.flac", []⟩).st.path =
      pyDirname "a/b.flac" :=
  ⟨(C7_rename_safety .flac (fun _ => true) true none true true
      [("artist", "A"), ("title", "T")] ⟨"a/b.flac", []⟩).1 (by decide),
    (C7_rename_safety .flac (fun _ => true) true none true true
      [("artist", "A"), ("title", "T")] ⟨"a/b.flac", []⟩).2.1⟩
